import Mathlib

/-! Context assembly of the ECS compose project factory.

A shallow embedding of `ecs-cli/modules/cli/compose/factory/factory.go`.

The Go code mutates one heap object (`ecsContext`) and calls collaborators
that live in other packages.  Here the heap object is an explicit state, the
collaborators are a record of their results, and every call the code makes
is appended to a call log, so "is invoked" and "is never invoked" are
statements about that log.

Go values that may be `nil` are `Option`s: `none` is `nil` (for a field of
the context: the zero value, never assigned).
-/

namespace cli

/-- Modelled from the spec: the declaration of `cli.Context` (urfave/cli) is
not part of the sources. It is the parsed command line, reduced to what is
read from it: the values of the `--file`/`-f` flag, the value of the
`--project-name`/`-p` flag and the remaining flags as name/value pairs. -/
structure Context where
  file : List String
  projectName : String
  flags : List (String × String)
deriving DecidableEq

end cli

namespace libcompose

/-- Modelled from the spec: the declaration of libcompose's `project.Context`
(embedded in `ECSContext` as `Context`) is not part of the sources. These are
the fields that `factory.go` or its flag populator write: the ordered
compose-file paths, the project name and the two lookup capabilities. -/
structure Context (EL RL : Type) where
  ComposeFiles : List String
  ProjectName : String
  EnvironmentLookup : Option EL
  ResourceLookup : Option RL
deriving DecidableEq

end libcompose

namespace context

/-- Modelled from the spec: the declaration of `context.ECSContext` is not
part of the sources. These are the fields that `factory.go` reads or writes.
`CC`, `EL` and `RL` are the types of the command configuration and of the two
lookup capabilities. -/
structure ECSContext (CC EL RL : Type) where
  Context : libcompose.Context EL RL
  CLIContext : Option cli.Context
  CommandConfig : Option CC
  IsService : Bool
deriving DecidableEq

/-- The value of `&context.ECSContext{}`: every field is its zero value. -/
def ECSContext.zero {CC EL RL : Type} : ECSContext CC EL RL :=
  { Context := { ComposeFiles := [], ProjectName := "", EnvironmentLookup := none,
                 ResourceLookup := none },
    CLIContext := none, CommandConfig := none, IsService := false }

end context

namespace factory

open context

/-- One call made by the factory to code outside `factory.go`. `NewProject`
carries the context the project is bound to, `Parse` the project it is invoked
on, `LogError` the error and the message handed to `utils.LogError`. -/
inductive Call (CC EL RL P E : Type) where
  | Populate
  | NewReadWriter
  | NewCommandConfig
  | GetDefaultEnvironmentLookup
  | GetDefaultResourceLookup
  | NewProject (ecsContext : ECSContext CC EL RL)
  | Parse (project : P)
  | LogError (err : E) (msg : String)
deriving DecidableEq

/-- What the collaborators return during one invocation; they live outside
`factory.go` and are parameters here. A Go `(value, error)` result is a pair
whose second component is `none` for a nil error; the code never looks at the
value when the error is non-nil. `NewProject` is the constructor
`project.NewProject`, which yields a project value for the context it is
given, and `Parse` the method `Project.Parse`; both only read the context.
`RW` is the type of the config handle, `P` of projects, `E` of errors. -/
structure Collaborators (RW CC EL RL P E : Type) where
  NewReadWriter : RW × Option E
  NewCommandConfig : cli.Context → RW → CC × Option E
  GetDefaultEnvironmentLookup : EL × Option E
  GetDefaultResourceLookup : RL × Option E
  NewProject : ECSContext CC EL RL → P
  Parse : P → Option E

/-- The heap object `ecsContext` together with the log of calls made so far. -/
structure State (CC EL RL P E : Type) where
  ecsContext : ECSContext CC EL RL
  calls : List (Call CC EL RL P E)
deriving DecidableEq

/-- A returned value together with the state the call leaves behind. -/
structure Outcome (CC EL RL P E α : Type) where
  state : State CC EL RL P E
  ret : α

variable {RW CC EL RL P E : Type}

/-- Append one call to the log. -/
def State.call (s : State CC EL RL P E) (c : Call CC EL RL P E) : State CC EL RL P E :=
  { s with calls := s.calls ++ [c] }

/-- The two canonical default compose files, primary first, override second. -/
def defaultComposeFiles : List String :=
  ["docker-compose.yml", "docker-compose.override.yml"]

/-- Modelled from the spec: `command.Populate` of the vendored libcompose is
not part of the sources. It fills the compose-file paths and the project name
of the context from the flags; explicit `--file` flags take precedence over
the canonical defaults, and with no file flag the list is the ordered pair of
the two conventional file names. -/
def Populate (context : libcompose.Context EL RL) (c : cli.Context) : libcompose.Context EL RL :=
  { context with
    ComposeFiles := if c.file = [] then defaultComposeFiles else c.file
    ProjectName := c.projectName }

namespace projectFactory

/-- `populateLibcomposeContext` sets the two libcompose lookup utilities on the
context: the environment lookup first, the resource lookup second, returning
at the first error. -/
def populateLibcomposeContext (w : Collaborators RW CC EL RL P E) (s : State CC EL RL P E) :
    Outcome CC EL RL P E (Option E) :=
  let s := s.call .GetDefaultEnvironmentLookup
  match w.GetDefaultEnvironmentLookup with
  | (_, some err) => { state := s, ret := some err }
  | (envLookup, none) =>
    let s := { s with ecsContext := { s.ecsContext with
      Context := { s.ecsContext.Context with EnvironmentLookup := some envLookup } } }
    let s := s.call .GetDefaultResourceLookup
    match w.GetDefaultResourceLookup with
    | (_, some err) => { state := s, ret := some err }
    | (resourceLookup, none) =>
      let s := { s with ecsContext := { s.ecsContext with
        Context := { s.ecsContext.Context with ResourceLookup := some resourceLookup } } }
      { state := s, ret := none }

/-- `populateContext` sets the required CLI arguments on the ECS context. -/
def populateContext (w : Collaborators RW CC EL RL P E) (s : State CC EL RL P E)
    (cliContext : cli.Context) : Outcome CC EL RL P E (Option E) :=
  let s := s.call .Populate
  let s := { s with ecsContext := { s.ecsContext with
    Context := Populate s.ecsContext.Context cliContext } }
  let s := { s with ecsContext := { s.ecsContext with CLIContext := some cliContext } }
  let s := s.call .NewReadWriter
  match w.NewReadWriter with
  | (_, some err) =>
    { state := s.call (.LogError err "Error loading config"), ret := some err }
  | (rdwr, none) =>
    let s := s.call .NewCommandConfig
    match w.NewCommandConfig cliContext rdwr with
    | (_, some err) =>
      { state := s.call (.LogError err
          "Unable to create an instance of CommandConfig given the cli context"),
        ret := some err }
    | (config, none) =>
      let s := { s with ecsContext := { s.ecsContext with CommandConfig := some config } }
      let r := populateLibcomposeContext w s
      match r.ret with
      | some err => { state := r.state, ret := some err }
      | none => { state := r.state, ret := none }

/-- `loadProject` opens the project by loading configs: it calls `Parse`, logs
a non-nil error and returns what `Parse` returned. -/
def loadProject (w : Collaborators RW CC EL RL P E) (s : State CC EL RL P E) (project : P) :
    Outcome CC EL RL P E (Option E) :=
  let s := s.call (.Parse project)
  let err := w.Parse project
  match err with
  | some e => { state := s.call (.LogError e "Unable to open ECS Compose Project"), ret := err }
  | none => { state := s, ret := err }

/-- `Create` creates and configures the ECS compose project from the command
line arguments. The result is the Go pair `(project.Project, error)`. -/
def Create (w : Collaborators RW CC EL RL P E) (cliContext : cli.Context) (isService : Bool) :
    Outcome CC EL RL P E (Option P × Option E) :=
  let s : State CC EL RL P E := { ecsContext := ECSContext.zero, calls := [] }
  let r := populateContext w s cliContext
  match r.ret with
  | some err => { state := r.state, ret := (none, some err) }
  | none =>
    let s := r.state
    let s := { s with ecsContext := { s.ecsContext with IsService := isService } }
    let s := s.call (.NewProject s.ecsContext)
    let project := w.NewProject s.ecsContext
    let r := loadProject w s project
    match r.ret with
    | some err => { state := r.state, ret := (none, some err) }
    | none => { state := r.state, ret := (some project, none) }

end projectFactory

/-! ## The contexts reached after each stage

These describe, for the lemmas below, the value of the heap object after the
flag stage, after the configuration stage and after each lookup. -/

/-- The context once the flags are populated and the CLI context is recorded. -/
def flagsPopulated (x : ECSContext CC EL RL) (c : cli.Context) : ECSContext CC EL RL :=
  { x with Context := Populate x.Context c, CLIContext := some c }

/-- The context once the command configuration returned by the builder is
attached. -/
def configAttached (w : Collaborators RW CC EL RL P E) (x : ECSContext CC EL RL)
    (c : cli.Context) : ECSContext CC EL RL :=
  { flagsPopulated x c with CommandConfig := some (w.NewCommandConfig c w.NewReadWriter.1).1 }

/-- The context once the environment lookup returned by its factory is
attached. -/
def envLookupAttached (w : Collaborators RW CC EL RL P E) (x : ECSContext CC EL RL)
    (c : cli.Context) : ECSContext CC EL RL :=
  { configAttached w x c with
    Context := { (configAttached w x c).Context with
      EnvironmentLookup := some w.GetDefaultEnvironmentLookup.1 } }

/-- The context once both lookups are attached. -/
def lookupsAttached (w : Collaborators RW CC EL RL P E) (x : ECSContext CC EL RL)
    (c : cli.Context) : ECSContext CC EL RL :=
  { envLookupAttached w x c with
    Context := { (envLookupAttached w x c).Context with
      ResourceLookup := some w.GetDefaultResourceLookup.1 } }

/-- The fully assembled context of one invocation: all stages applied to the
zero context, then the service flag set. -/
def assembled (w : Collaborators RW CC EL RL P E) (c : cli.Context) (b : Bool) :
    ECSContext CC EL RL :=
  { lookupsAttached w ECSContext.zero c with IsService := b }

/-! ## The staged protocol as the spec words it -/

/-- The six collaborator stages of one invocation. -/
inductive Stage where
  | flagPopulator
  | configReader
  | commandConfigBuilder
  | environmentLookupFactory
  | resourceLookupFactory
  | parse
deriving DecidableEq

/-- The fixed order of the stages. -/
def stageOrder : List Stage :=
  [.flagPopulator, .configReader, .commandConfigBuilder, .environmentLookupFactory,
   .resourceLookupFactory, .parse]

/-- The stage a logged call belongs to; constructing the project and logging
an error are not stages. -/
def Call.stage : Call CC EL RL P E → Option Stage
  | .Populate => some .flagPopulator
  | .NewReadWriter => some .configReader
  | .NewCommandConfig => some .commandConfigBuilder
  | .GetDefaultEnvironmentLookup => some .environmentLookupFactory
  | .GetDefaultResourceLookup => some .resourceLookupFactory
  | .Parse _ => some .parse
  | .NewProject _ => none
  | .LogError _ _ => none

/-- The stages invoked, in the order of the call log. -/
def stages (calls : List (Call CC EL RL P E)) : List Stage :=
  calls.filterMap Call.stage

/-- The error each stage yields when it is reached: the flag populator cannot
fail, the builder is given the handle of the reader, and `Parse` runs on the
project bound to the fully assembled context. -/
def stageError (w : Collaborators RW CC EL RL P E) (c : cli.Context) (b : Bool) :
    Stage → Option E
  | .flagPopulator => none
  | .configReader => w.NewReadWriter.2
  | .commandConfigBuilder => (w.NewCommandConfig c w.NewReadWriter.1).2
  | .environmentLookupFactory => w.GetDefaultEnvironmentLookup.2
  | .resourceLookupFactory => w.GetDefaultResourceLookup.2
  | .parse => w.Parse (w.NewProject (assembled w c b))

/-- The short-circuiting result chain of the spec: run the stages in order,
stop at the first one that fails; the result is the stages that ran and the
error of the failing stage, if any. -/
def runStages (err : Stage → Option E) : List Stage → List Stage × Option E
  | [] => ([], none)
  | st :: rest =>
    match err st with
    | some e => ([st], some e)
    | none => (st :: (runStages err rest).1, (runStages err rest).2)

/-- A concrete set of collaborators over strings: each fallible collaborator
returns the given error (`none` for success); the project is the context it
is bound to. -/
def demoWorld (rwErr ccErr elErr rlErr parseErr : Option String) :
    Collaborators Nat String String String (ECSContext String String String) String :=
  { NewReadWriter := (7, rwErr)
    NewCommandConfig := fun c rw => (c.projectName ++ toString rw, ccErr)
    GetDefaultEnvironmentLookup := ("env", elErr)
    GetDefaultResourceLookup := ("res", rlErr)
    NewProject := fun ctx => ctx
    Parse := fun _ => parseErr }

/-- A command line without file flags. -/
def demoCli : cli.Context := { file := [], projectName := "p", flags := [("region", "us-east-1")] }

/-! ## Case analysis of the source functions (shared lemmas) -/

section Lemmas

open projectFactory

variable (w : Collaborators RW CC EL RL P E) (s : State CC EL RL P E) (c : cli.Context)
  (b : Bool)

theorem populateLibcomposeContext_envErr (e : E)
    (h : w.GetDefaultEnvironmentLookup.2 = some e) :
    populateLibcomposeContext w s =
      { state := { ecsContext := s.ecsContext,
                   calls := s.calls ++ [.GetDefaultEnvironmentLookup] },
        ret := some e } := by
  rcases hx : w.GetDefaultEnvironmentLookup with ⟨v, _ | e1⟩ <;>
    simp_all [populateLibcomposeContext, State.call]

theorem populateLibcomposeContext_resErr (e : E)
    (h1 : w.GetDefaultEnvironmentLookup.2 = none)
    (h2 : w.GetDefaultResourceLookup.2 = some e) :
    populateLibcomposeContext w s =
      { state := { ecsContext := { s.ecsContext with Context := { s.ecsContext.Context with
                     EnvironmentLookup := some w.GetDefaultEnvironmentLookup.1 } },
                   calls := s.calls ++ [.GetDefaultEnvironmentLookup, .GetDefaultResourceLookup] },
        ret := some e } := by
  rcases hx : w.GetDefaultEnvironmentLookup with ⟨v, _ | e1⟩ <;>
  rcases hy : w.GetDefaultResourceLookup with ⟨v2, _ | e2⟩ <;>
    simp_all [populateLibcomposeContext, State.call]

theorem populateLibcomposeContext_ok
    (h1 : w.GetDefaultEnvironmentLookup.2 = none)
    (h2 : w.GetDefaultResourceLookup.2 = none) :
    populateLibcomposeContext w s =
      { state := { ecsContext := { s.ecsContext with Context := { s.ecsContext.Context with
                     EnvironmentLookup := some w.GetDefaultEnvironmentLookup.1
                     ResourceLookup := some w.GetDefaultResourceLookup.1 } },
                   calls := s.calls ++ [.GetDefaultEnvironmentLookup, .GetDefaultResourceLookup] },
        ret := none } := by
  rcases hx : w.GetDefaultEnvironmentLookup with ⟨v, _ | e1⟩ <;>
  rcases hy : w.GetDefaultResourceLookup with ⟨v2, _ | e2⟩ <;>
    simp_all [populateLibcomposeContext, State.call]

theorem populateContext_rwErr (e : E) (h : w.NewReadWriter.2 = some e) :
    populateContext w s c =
      { state := { ecsContext := flagsPopulated s.ecsContext c,
                   calls := s.calls ++ [.Populate, .NewReadWriter,
                     .LogError e "Error loading config"] },
        ret := some e } := by
  rcases hx : w.NewReadWriter with ⟨v, _ | e1⟩ <;>
    simp_all [populateContext, State.call, flagsPopulated]

theorem populateContext_ccErr (e : E) (h1 : w.NewReadWriter.2 = none)
    (h2 : (w.NewCommandConfig c w.NewReadWriter.1).2 = some e) :
    populateContext w s c =
      { state := { ecsContext := flagsPopulated s.ecsContext c,
                   calls := s.calls ++ [.Populate, .NewReadWriter, .NewCommandConfig,
                     .LogError e
                       "Unable to create an instance of CommandConfig given the cli context"] },
        ret := some e } := by
  rcases hx : w.NewReadWriter with ⟨v, _ | e1⟩ <;> simp [hx] at h1 h2
  rcases hy : w.NewCommandConfig c v with ⟨v2, _ | e2⟩ <;>
    simp_all [populateContext, State.call, flagsPopulated]

theorem populateContext_envErr (e : E) (h1 : w.NewReadWriter.2 = none)
    (h2 : (w.NewCommandConfig c w.NewReadWriter.1).2 = none)
    (h3 : w.GetDefaultEnvironmentLookup.2 = some e) :
    populateContext w s c =
      { state := { ecsContext := configAttached w s.ecsContext c,
                   calls := s.calls ++ [.Populate, .NewReadWriter, .NewCommandConfig,
                     .GetDefaultEnvironmentLookup] },
        ret := some e } := by
  rcases hx : w.NewReadWriter with ⟨v, _ | e1⟩ <;> simp [hx] at h1 h2
  rcases hy : w.NewCommandConfig c v with ⟨v2, _ | e2⟩ <;> simp [hy] at h2
  simp [populateContext, hx, hy, populateLibcomposeContext_envErr w _ e h3, State.call,
    flagsPopulated, configAttached]

theorem populateContext_resErr (e : E) (h1 : w.NewReadWriter.2 = none)
    (h2 : (w.NewCommandConfig c w.NewReadWriter.1).2 = none)
    (h3 : w.GetDefaultEnvironmentLookup.2 = none)
    (h4 : w.GetDefaultResourceLookup.2 = some e) :
    populateContext w s c =
      { state := { ecsContext := envLookupAttached w s.ecsContext c,
                   calls := s.calls ++ [.Populate, .NewReadWriter, .NewCommandConfig,
                     .GetDefaultEnvironmentLookup, .GetDefaultResourceLookup] },
        ret := some e } := by
  rcases hx : w.NewReadWriter with ⟨v, _ | e1⟩ <;> simp [hx] at h1 h2
  rcases hy : w.NewCommandConfig c v with ⟨v2, _ | e2⟩ <;> simp [hy] at h2
  simp [populateContext, hx, hy, populateLibcomposeContext_resErr w _ e h3 h4, State.call,
    flagsPopulated, configAttached, envLookupAttached]

theorem populateContext_ok (h1 : w.NewReadWriter.2 = none)
    (h2 : (w.NewCommandConfig c w.NewReadWriter.1).2 = none)
    (h3 : w.GetDefaultEnvironmentLookup.2 = none)
    (h4 : w.GetDefaultResourceLookup.2 = none) :
    populateContext w s c =
      { state := { ecsContext := lookupsAttached w s.ecsContext c,
                   calls := s.calls ++ [.Populate, .NewReadWriter, .NewCommandConfig,
                     .GetDefaultEnvironmentLookup, .GetDefaultResourceLookup] },
        ret := none } := by
  rcases hx : w.NewReadWriter with ⟨v, _ | e1⟩ <;> simp [hx] at h1 h2
  rcases hy : w.NewCommandConfig c v with ⟨v2, _ | e2⟩ <;> simp [hy] at h2
  simp [populateContext, hx, hy, populateLibcomposeContext_ok w _ h3 h4, State.call,
    flagsPopulated, configAttached, envLookupAttached, lookupsAttached]

theorem loadProject_ret (p : P) : (loadProject w s p).ret = w.Parse p := by
  simp only [loadProject]
  split <;> rfl

theorem loadProject_calls_err (p : P) (e : E) (h : w.Parse p = some e) :
    (loadProject w s p).state =
      { ecsContext := s.ecsContext,
        calls := s.calls ++ [.Parse p, .LogError e "Unable to open ECS Compose Project"] } := by
  simp [loadProject, h, State.call]

theorem loadProject_calls_ok (p : P) (h : w.Parse p = none) :
    (loadProject w s p).state =
      { ecsContext := s.ecsContext, calls := s.calls ++ [.Parse p] } := by
  simp [loadProject, h, State.call]

theorem Create_rwErr (e : E) (h : w.NewReadWriter.2 = some e) :
    Create w c b =
      { state := { ecsContext := flagsPopulated ECSContext.zero c,
                   calls := [.Populate, .NewReadWriter, .LogError e "Error loading config"] },
        ret := (none, some e) } := by
  simp [Create, populateContext_rwErr w _ c e h]

theorem Create_ccErr (e : E) (h1 : w.NewReadWriter.2 = none)
    (h2 : (w.NewCommandConfig c w.NewReadWriter.1).2 = some e) :
    Create w c b =
      { state := { ecsContext := flagsPopulated ECSContext.zero c,
                   calls := [.Populate, .NewReadWriter, .NewCommandConfig,
                     .LogError e
                       "Unable to create an instance of CommandConfig given the cli context"] },
        ret := (none, some e) } := by
  simp [Create, populateContext_ccErr w _ c e h1 h2]

theorem Create_envErr (e : E) (h1 : w.NewReadWriter.2 = none)
    (h2 : (w.NewCommandConfig c w.NewReadWriter.1).2 = none)
    (h3 : w.GetDefaultEnvironmentLookup.2 = some e) :
    Create w c b =
      { state := { ecsContext := configAttached w ECSContext.zero c,
                   calls := [.Populate, .NewReadWriter, .NewCommandConfig,
                     .GetDefaultEnvironmentLookup] },
        ret := (none, some e) } := by
  simp [Create, populateContext_envErr w _ c e h1 h2 h3]

theorem Create_resErr (e : E) (h1 : w.NewReadWriter.2 = none)
    (h2 : (w.NewCommandConfig c w.NewReadWriter.1).2 = none)
    (h3 : w.GetDefaultEnvironmentLookup.2 = none)
    (h4 : w.GetDefaultResourceLookup.2 = some e) :
    Create w c b =
      { state := { ecsContext := envLookupAttached w ECSContext.zero c,
                   calls := [.Populate, .NewReadWriter, .NewCommandConfig,
                     .GetDefaultEnvironmentLookup, .GetDefaultResourceLookup] },
        ret := (none, some e) } := by
  simp [Create, populateContext_resErr w _ c e h1 h2 h3 h4]

theorem Create_parseErr (e : E) (h1 : w.NewReadWriter.2 = none)
    (h2 : (w.NewCommandConfig c w.NewReadWriter.1).2 = none)
    (h3 : w.GetDefaultEnvironmentLookup.2 = none)
    (h4 : w.GetDefaultResourceLookup.2 = none)
    (h5 : w.Parse (w.NewProject (assembled w c b)) = some e) :
    Create w c b =
      { state := { ecsContext := assembled w c b,
                   calls := [.Populate, .NewReadWriter, .NewCommandConfig,
                     .GetDefaultEnvironmentLookup, .GetDefaultResourceLookup,
                     .NewProject (assembled w c b), .Parse (w.NewProject (assembled w c b)),
                     .LogError e "Unable to open ECS Compose Project"] },
        ret := (none, some e) } := by
  have h5' := h5
  simp only [assembled] at h5'
  simp [Create, populateContext_ok w _ c h1 h2 h3 h4, State.call, loadProject, h5', assembled]

theorem Create_ok (h1 : w.NewReadWriter.2 = none)
    (h2 : (w.NewCommandConfig c w.NewReadWriter.1).2 = none)
    (h3 : w.GetDefaultEnvironmentLookup.2 = none)
    (h4 : w.GetDefaultResourceLookup.2 = none)
    (h5 : w.Parse (w.NewProject (assembled w c b)) = none) :
    Create w c b =
      { state := { ecsContext := assembled w c b,
                   calls := [.Populate, .NewReadWriter, .NewCommandConfig,
                     .GetDefaultEnvironmentLookup, .GetDefaultResourceLookup,
                     .NewProject (assembled w c b), .Parse (w.NewProject (assembled w c b))] },
        ret := (some (w.NewProject (assembled w c b)), none) } := by
  have h5' := h5
  simp only [assembled] at h5'
  simp [Create, populateContext_ok w _ c h1 h2 h3 h4, State.call, loadProject, h5', assembled]

theorem populateContext_ret_none (h : (populateContext w s c).ret = none) :
    w.NewReadWriter.2 = none ∧ (w.NewCommandConfig c w.NewReadWriter.1).2 = none ∧
      w.GetDefaultEnvironmentLookup.2 = none ∧ w.GetDefaultResourceLookup.2 = none := by
  rcases h1 : w.NewReadWriter.2 with _ | e1
  swap
  · simp [populateContext_rwErr w s c e1 h1] at h
  rcases h2 : (w.NewCommandConfig c w.NewReadWriter.1).2 with _ | e2
  swap
  · simp [populateContext_ccErr w s c e2 h1 h2] at h
  rcases h3 : w.GetDefaultEnvironmentLookup.2 with _ | e3
  swap
  · simp [populateContext_envErr w s c e3 h1 h2 h3] at h
  rcases h4 : w.GetDefaultResourceLookup.2 with _ | e4
  swap
  · simp [populateContext_resErr w s c e4 h1 h2 h3 h4] at h
  exact ⟨rfl, rfl, rfl, rfl⟩

theorem outcome_cases :
    (∃ e, w.NewReadWriter.2 = some e) ∨
    (w.NewReadWriter.2 = none ∧ ∃ e, (w.NewCommandConfig c w.NewReadWriter.1).2 = some e) ∨
    (w.NewReadWriter.2 = none ∧ (w.NewCommandConfig c w.NewReadWriter.1).2 = none ∧
      ∃ e, w.GetDefaultEnvironmentLookup.2 = some e) ∨
    (w.NewReadWriter.2 = none ∧ (w.NewCommandConfig c w.NewReadWriter.1).2 = none ∧
      w.GetDefaultEnvironmentLookup.2 = none ∧ ∃ e, w.GetDefaultResourceLookup.2 = some e) ∨
    (w.NewReadWriter.2 = none ∧ (w.NewCommandConfig c w.NewReadWriter.1).2 = none ∧
      w.GetDefaultEnvironmentLookup.2 = none ∧ w.GetDefaultResourceLookup.2 = none ∧
      ∃ e, w.Parse (w.NewProject (assembled w c b)) = some e) ∨
    (w.NewReadWriter.2 = none ∧ (w.NewCommandConfig c w.NewReadWriter.1).2 = none ∧
      w.GetDefaultEnvironmentLookup.2 = none ∧ w.GetDefaultResourceLookup.2 = none ∧
      w.Parse (w.NewProject (assembled w c b)) = none) := by
  rcases w.NewReadWriter.2 with _ | e1
  swap
  · exact Or.inl ⟨e1, rfl⟩
  rcases (w.NewCommandConfig c w.NewReadWriter.1).2 with _ | e2
  swap
  · exact Or.inr (Or.inl ⟨rfl, e2, rfl⟩)
  rcases w.GetDefaultEnvironmentLookup.2 with _ | e3
  swap
  · exact Or.inr (Or.inr (Or.inl ⟨rfl, rfl, e3, rfl⟩))
  rcases w.GetDefaultResourceLookup.2 with _ | e4
  swap
  · exact Or.inr (Or.inr (Or.inr (Or.inl ⟨rfl, rfl, rfl, e4, rfl⟩)))
  rcases w.Parse (w.NewProject (assembled w c b)) with _ | e5
  · exact Or.inr (Or.inr (Or.inr (Or.inr (Or.inr ⟨rfl, rfl, rfl, rfl, rfl⟩))))
  · exact Or.inr (Or.inr (Or.inr (Or.inr (Or.inl ⟨rfl, rfl, rfl, rfl, e5, rfl⟩))))

end Lemmas

/-! ## The claims -/

section Claims

open projectFactory

/-- C1: for every cli context, every service flag and every outcome of the
collaborators, `Create` returns either a nil project with a non-nil error or a
non-nil project with a nil error, and never one of the two other shapes. -/
theorem Create_returns_project_or_error (w : Collaborators RW CC EL RL P E) (c : cli.Context)
    (b : Bool) :
    ((∃ e, (Create w c b).ret = (none, some e)) ∨ (∃ p, (Create w c b).ret = (some p, none))) ∧
      (∀ p e, (Create w c b).ret ≠ (some p, some e)) ∧ (Create w c b).ret ≠ (none, none) := by
  have key : (∃ e, (Create w c b).ret = (none, some e)) ∨
      (∃ p, (Create w c b).ret = (some p, none)) := by
    simp only [Create]
    split
    · exact Or.inl ⟨_, rfl⟩
    · split
      · exact Or.inl ⟨_, rfl⟩
      · exact Or.inr ⟨_, rfl⟩
  refine ⟨key, ?_, ?_⟩
  · intro p e h
    rcases key with ⟨e1, h1⟩ | ⟨p1, h1⟩ <;> simp [h1] at h
  · intro h
    rcases key with ⟨e1, h1⟩ | ⟨p1, h1⟩ <;> simp [h1] at h

/-- C2: if `config.NewReadWriter` fails with error `e`, `Create` returns a nil
project and exactly `e`, and the log of calls holds neither lookup factory,
nor the command-config builder, nor the project constructor, nor `Parse`. -/
theorem Create_readWriter_failure (w : Collaborators RW CC EL RL P E) (c : cli.Context)
    (b : Bool) (e : E) (h : w.NewReadWriter.2 = some e) :
    (Create w c b).ret = (none, some e) ∧
      Call.GetDefaultEnvironmentLookup ∉ (Create w c b).state.calls ∧
      Call.GetDefaultResourceLookup ∉ (Create w c b).state.calls ∧
      Call.NewCommandConfig ∉ (Create w c b).state.calls ∧
      (∀ x, Call.NewProject x ∉ (Create w c b).state.calls) ∧
      (∀ p, Call.Parse p ∉ (Create w c b).state.calls) ∧
      (Create w c b).state.calls =
        [.Populate, .NewReadWriter, .LogError e "Error loading config"] := by
  simp [Create_rwErr w c b e h]

/-- Witness of C2 on a run whose config reader fails. -/
theorem Create_readWriter_failure_witness :
    (demoWorld (some "no config") none none none none).NewReadWriter.2 = some "no config" ∧
      (Create (demoWorld (some "no config") none none none none) demoCli true).ret =
        (none, some "no config") :=
  ⟨rfl, (Create_readWriter_failure _ demoCli true "no config" rfl).1⟩

/-- C3: if the config reader and the command-config builder succeed and
`utils.GetDefaultEnvironmentLookup` fails with error `e`, then
`utils.GetDefaultResourceLookup` is not in the log of calls, the context's
`ResourceLookup` is still unset, and `Create` returns a nil project with
exactly `e`; `populateLibcomposeContext` itself returns `e` from any state
without touching `ResourceLookup`. -/
theorem Create_environmentLookup_failure (w : Collaborators RW CC EL RL P E) (c : cli.Context)
    (b : Bool) (e : E) (h1 : w.NewReadWriter.2 = none)
    (h2 : (w.NewCommandConfig c w.NewReadWriter.1).2 = none)
    (h3 : w.GetDefaultEnvironmentLookup.2 = some e) :
    Call.GetDefaultResourceLookup ∉ (Create w c b).state.calls ∧
      (Create w c b).state.ecsContext.Context.ResourceLookup = none ∧
      (Create w c b).ret = (none, some e) ∧
      (∀ s : State CC EL RL P E,
        (populateLibcomposeContext w s).ret = some e ∧
        (populateLibcomposeContext w s).state.ecsContext.Context.ResourceLookup =
          s.ecsContext.Context.ResourceLookup ∧
        (populateLibcomposeContext w s).state.calls =
          s.calls ++ [.GetDefaultEnvironmentLookup]) := by
  refine ⟨?_, ?_, ?_, ?_⟩
  · simp [Create_envErr w c b e h1 h2 h3]
  · simp [Create_envErr w c b e h1 h2 h3, configAttached, flagsPopulated, Populate,
      ECSContext.zero]
  · simp [Create_envErr w c b e h1 h2 h3]
  · intro s
    simp [populateLibcomposeContext_envErr w s e h3]

/-- Witness of C3 on a run whose environment lookup factory fails. -/
theorem Create_environmentLookup_failure_witness :
    (Create (demoWorld none none (some "no cwd") none none) demoCli false).ret =
        (none, some "no cwd") ∧
      (Create (demoWorld none none (some "no cwd") none none) demoCli
        false).state.ecsContext.Context.ResourceLookup = none :=
  ⟨(Create_environmentLookup_failure _ demoCli false "no cwd" rfl rfl rfl).2.2.1,
   (Create_environmentLookup_failure _ demoCli false "no cwd" rfl rfl rfl).2.1⟩

/-- C4: when context assembly succeeds, `Create` invokes `Parse` on exactly
one project; if that call fails with error `e`, `Create` returns a nil project
and the same `e`; and `loadProject` returns exactly what `Parse` returned, nil
included. -/
theorem Create_parse_failure (w : Collaborators RW CC EL RL P E) (c : cli.Context) (b : Bool)
    (hctx : (populateContext w { ecsContext := ECSContext.zero, calls := [] } c).ret = none) :
    (∃ p, Call.Parse p ∈ (Create w c b).state.calls ∧
        (∀ q, Call.Parse q ∈ (Create w c b).state.calls → q = p) ∧
        (∀ e, w.Parse p = some e → (Create w c b).ret = (none, some e))) ∧
      (∀ (s : State CC EL RL P E) (q : P), (loadProject w s q).ret = w.Parse q) := by
  obtain ⟨h1, h2, h3, h4⟩ := populateContext_ret_none w _ c hctx
  refine ⟨⟨w.NewProject (assembled w c b), ?_⟩, fun s q => loadProject_ret w s q⟩
  rcases h5 : w.Parse (w.NewProject (assembled w c b)) with _ | e5
  · simp [Create_ok w c b h1 h2 h3 h4 h5]
  · simp [Create_parseErr w c b e5 h1 h2 h3 h4 h5]

/-- Witness of C4 on a run whose parse fails. -/
theorem Create_parse_failure_witness :
    (populateContext (demoWorld none none none none (some "bad yaml"))
        { ecsContext := ECSContext.zero, calls := [] } demoCli).ret = none ∧
      ∃ p, Call.Parse p ∈
          (Create (demoWorld none none none none (some "bad yaml")) demoCli true).state.calls ∧
        ((demoWorld none none none none (some "bad yaml")).Parse p = some "bad yaml" →
          (Create (demoWorld none none none none (some "bad yaml")) demoCli true).ret =
            (none, some "bad yaml")) := by
  refine ⟨by simp [populateContext_ok, demoWorld], ?_⟩
  obtain ⟨⟨p, hp, _, hq⟩, _⟩ :=
    Create_parse_failure (demoWorld none none none none (some "bad yaml")) demoCli true
      (by simp [populateContext_ok, demoWorld])
  exact ⟨p, hp, hq "bad yaml"⟩

/-- C5 fails as stated: with the config reader and the command-config builder
succeeding, `Create` still returns a nil project when the environment lookup
factory fails, when the resource lookup factory fails, and when `Parse`
fails. -/
theorem Create_config_success_counterexample :
    (¬ ((demoWorld none none (some "no cwd") none none).NewReadWriter.2 = none →
      ((demoWorld none none (some "no cwd") none none).NewCommandConfig demoCli
        (demoWorld none none (some "no cwd") none none).NewReadWriter.1).2 = none →
      ∃ p, (Create (demoWorld none none (some "no cwd") none none) demoCli true).ret =
        (some p, none))) ∧
    (¬ ((demoWorld none none none (some "no cwd") none).NewReadWriter.2 = none →
      ((demoWorld none none none (some "no cwd") none).NewCommandConfig demoCli
        (demoWorld none none none (some "no cwd") none).NewReadWriter.1).2 = none →
      ∃ p, (Create (demoWorld none none none (some "no cwd") none) demoCli true).ret =
        (some p, none))) ∧
    (¬ ((demoWorld none none none none (some "no compose file")).NewReadWriter.2 = none →
      ((demoWorld none none none none (some "no compose file")).NewCommandConfig demoCli
        (demoWorld none none none none (some "no compose file")).NewReadWriter.1).2 = none →
      ∃ p, (Create (demoWorld none none none none (some "no compose file")) demoCli true).ret =
        (some p, none))) := by
  refine ⟨?_, ?_, ?_⟩
  · intro h
    obtain ⟨p, hp⟩ := h rfl rfl
    rw [Create_envErr _ demoCli true "no cwd" rfl rfl rfl] at hp
    simp at hp
  · intro h
    obtain ⟨p, hp⟩ := h rfl rfl
    rw [Create_resErr _ demoCli true "no cwd" rfl rfl rfl rfl] at hp
    simp at hp
  · intro h
    obtain ⟨p, hp⟩ := h rfl rfl
    rw [Create_parseErr _ demoCli true "no compose file" rfl rfl rfl rfl rfl] at hp
    simp at hp

/-- C5, amended: when the config reader and the command-config builder
succeed, both default lookup factories succeed and the `Parse` call that
`Create` makes returns nil, `Create` returns a non-nil project and a nil
error. -/
theorem Create_all_stages_succeed (w : Collaborators RW CC EL RL P E) (c : cli.Context)
    (b : Bool) (h1 : w.NewReadWriter.2 = none)
    (h2 : (w.NewCommandConfig c w.NewReadWriter.1).2 = none)
    (h3 : w.GetDefaultEnvironmentLookup.2 = none)
    (h4 : w.GetDefaultResourceLookup.2 = none)
    (h5 : ∀ p, Call.Parse p ∈ (Create w c b).state.calls → w.Parse p = none) :
    ∃ p, (Create w c b).ret = (some p, none) := by
  rcases h : w.Parse (w.NewProject (assembled w c b)) with _ | e
  · exact ⟨_, by rw [Create_ok w c b h1 h2 h3 h4 h]⟩
  · have hmem : Call.Parse (w.NewProject (assembled w c b)) ∈ (Create w c b).state.calls := by
      simp [Create_parseErr w c b e h1 h2 h3 h4 h]
    rw [h5 _ hmem] at h
    cases h

/-- Witness of the amended C5 on a run where every stage succeeds. -/
theorem Create_all_stages_succeed_witness :
    ∃ p, (Create (demoWorld none none none none none) demoCli true).ret = (some p, none) :=
  Create_all_stages_succeed (demoWorld none none none none none) demoCli true rfl rfl rfl rfl
    (fun _ _ => rfl)

/-- C6: when context assembly succeeds, `Create` binds the project to exactly
one context, that context has `IsService` equal to the input flag, `Parse` is
invoked on the project built from it and on no other, and the context the
invocation leaves behind has the same flag. -/
theorem Create_isService_propagates (w : Collaborators RW CC EL RL P E) (c : cli.Context)
    (b : Bool)
    (hctx : (populateContext w { ecsContext := ECSContext.zero, calls := [] } c).ret = none) :
    (∃ x : ECSContext CC EL RL, x.IsService = b ∧
        Call.NewProject x ∈ (Create w c b).state.calls ∧
        Call.Parse (w.NewProject x) ∈ (Create w c b).state.calls ∧
        (∀ y, Call.NewProject y ∈ (Create w c b).state.calls → y = x) ∧
        (∀ q, Call.Parse q ∈ (Create w c b).state.calls → q = w.NewProject x)) ∧
      (Create w c b).state.ecsContext.IsService = b := by
  obtain ⟨h1, h2, h3, h4⟩ := populateContext_ret_none w _ c hctx
  rcases h5 : w.Parse (w.NewProject (assembled w c b)) with _ | e5
  · refine ⟨⟨assembled w c b, rfl, ?_⟩, ?_⟩ <;> simp [Create_ok w c b h1 h2 h3 h4 h5, assembled]
  · refine ⟨⟨assembled w c b, rfl, ?_⟩, ?_⟩ <;>
      simp [Create_parseErr w c b e5 h1 h2 h3 h4 h5, assembled]

/-- Witness of C6 on a successful run with the service flag set. -/
theorem Create_isService_propagates_witness :
    (Create (demoWorld none none none none none) demoCli true).state.ecsContext.IsService =
      true :=
  (Create_isService_propagates (demoWorld none none none none none) demoCli true
    (by simp [populateContext_ok, demoWorld])).2

/-- C7: if the config reader succeeds and `config.NewCommandConfig` fails with
error `e`, `populateContext` returns exactly `e` from any state, leaves the
context's `CommandConfig` as it was and calls no lookup factory; in `Create`
the `CommandConfig` is unset, no lookup factory is in the log and the result
is a nil project with `e`. -/
theorem populateContext_commandConfig_failure (w : Collaborators RW CC EL RL P E)
    (c : cli.Context) (b : Bool) (e : E) (h1 : w.NewReadWriter.2 = none)
    (h2 : (w.NewCommandConfig c w.NewReadWriter.1).2 = some e) :
    (∀ s : State CC EL RL P E,
        (populateContext w s c).ret = some e ∧
        (populateContext w s c).state.ecsContext.CommandConfig = s.ecsContext.CommandConfig ∧
        (populateContext w s c).state.calls =
          s.calls ++ [.Populate, .NewReadWriter, .NewCommandConfig,
            .LogError e "Unable to create an instance of CommandConfig given the cli context"]) ∧
      (Create w c b).state.ecsContext.CommandConfig = none ∧
      Call.GetDefaultEnvironmentLookup ∉ (Create w c b).state.calls ∧
      Call.GetDefaultResourceLookup ∉ (Create w c b).state.calls ∧
      (Create w c b).ret = (none, some e) := by
  refine ⟨fun s => ?_, ?_, ?_, ?_, ?_⟩
  · simp [populateContext_ccErr w s c e h1 h2, flagsPopulated]
  · simp [Create_ccErr w c b e h1 h2, flagsPopulated, ECSContext.zero]
  · simp [Create_ccErr w c b e h1 h2]
  · simp [Create_ccErr w c b e h1 h2]
  · simp [Create_ccErr w c b e h1 h2]

/-- Witness of C7 on a run whose command-config builder fails. -/
theorem populateContext_commandConfig_failure_witness :
    (Create (demoWorld none (some "no region") none none none) demoCli true).ret =
        (none, some "no region") ∧
      (Create (demoWorld none (some "no region") none none none) demoCli
        true).state.ecsContext.CommandConfig = none :=
  ⟨(populateContext_commandConfig_failure _ demoCli true "no region" rfl rfl).2.2.2.2,
   (populateContext_commandConfig_failure _ demoCli true "no region" rfl rfl).2.1⟩

/-- C8: with no file flag, the compose files of the context that `Create`
assembles are exactly `docker-compose.yml` then `docker-compose.override.yml`,
both in the context left behind and in the context the project is bound to;
and for any flags, the stages after the flag populator leave the compose-file
sequence as the populator set it. -/
theorem Create_default_composeFiles (w : Collaborators RW CC EL RL P E) (c : cli.Context)
    (b : Bool) (h : c.file = []) :
    (Create w c b).state.ecsContext.Context.ComposeFiles =
        ["docker-compose.yml", "docker-compose.override.yml"] ∧
      (∀ x, Call.NewProject x ∈ (Create w c b).state.calls →
        x.Context.ComposeFiles = ["docker-compose.yml", "docker-compose.override.yml"]) ∧
      (∀ d : cli.Context,
        (Create w d b).state.ecsContext.Context.ComposeFiles =
            (Populate (ECSContext.zero : ECSContext CC EL RL).Context d).ComposeFiles ∧
        (∀ x, Call.NewProject x ∈ (Create w d b).state.calls →
          x.Context.ComposeFiles =
            (Populate (ECSContext.zero : ECSContext CC EL RL).Context d).ComposeFiles)) := by
  have gen : ∀ d : cli.Context,
      (Create w d b).state.ecsContext.Context.ComposeFiles =
          (Populate (ECSContext.zero : ECSContext CC EL RL).Context d).ComposeFiles ∧
      (∀ x, Call.NewProject x ∈ (Create w d b).state.calls →
        x.Context.ComposeFiles =
          (Populate (ECSContext.zero : ECSContext CC EL RL).Context d).ComposeFiles) := by
    intro d
    rcases outcome_cases w d b with ⟨e, h1⟩ | ⟨h1, e, h2⟩ | ⟨h1, h2, e, h3⟩ |
      ⟨h1, h2, h3, e, h4⟩ | ⟨h1, h2, h3, h4, e, h5⟩ | ⟨h1, h2, h3, h4, h5⟩
    · simp [Create_rwErr w d b e h1, flagsPopulated]
    · simp [Create_ccErr w d b e h1 h2, flagsPopulated]
    · simp [Create_envErr w d b e h1 h2 h3, flagsPopulated, configAttached]
    · simp [Create_resErr w d b e h1 h2 h3 h4, flagsPopulated, configAttached,
        envLookupAttached]
    · simp [Create_parseErr w d b e h1 h2 h3 h4 h5, flagsPopulated, configAttached,
        envLookupAttached, lookupsAttached, assembled]
    · simp [Create_ok w d b h1 h2 h3 h4 h5, flagsPopulated, configAttached,
        envLookupAttached, lookupsAttached, assembled]
  have hd : (Populate (ECSContext.zero : ECSContext CC EL RL).Context c).ComposeFiles =
      ["docker-compose.yml", "docker-compose.override.yml"] := by
    simp [Populate, h, defaultComposeFiles]
  refine ⟨?_, ?_, gen⟩
  · rw [(gen c).1, hd]
  · intro x hx
    rw [(gen c).2 x hx, hd]

/-- Witness of C8 on a successful run without file flags. -/
theorem Create_default_composeFiles_witness :
    demoCli.file = [] ∧
      (Create (demoWorld none none none none none) demoCli
        true).state.ecsContext.Context.ComposeFiles =
        ["docker-compose.yml", "docker-compose.override.yml"] :=
  ⟨rfl, (Create_default_composeFiles (demoWorld none none none none none) demoCli true rfl).1⟩

/-- C9: every project on which `Create` invokes `Parse` was built from a
context that holds the command configuration returned by the builder and the
two lookups returned by their default factories; and `populateContext`
returns nil only in a state whose three fields have been attached. -/
theorem Parse_only_on_complete_context (w : Collaborators RW CC EL RL P E) (c : cli.Context)
    (b : Bool) :
    (∀ p, Call.Parse p ∈ (Create w c b).state.calls →
        ∃ x : ECSContext CC EL RL, Call.NewProject x ∈ (Create w c b).state.calls ∧
          p = w.NewProject x ∧
          x.CommandConfig = some (w.NewCommandConfig c w.NewReadWriter.1).1 ∧
          x.Context.EnvironmentLookup = some w.GetDefaultEnvironmentLookup.1 ∧
          x.Context.ResourceLookup = some w.GetDefaultResourceLookup.1) ∧
      (∀ s : State CC EL RL P E, (populateContext w s c).ret = none →
        (populateContext w s c).state.ecsContext.CommandConfig =
            some (w.NewCommandConfig c w.NewReadWriter.1).1 ∧
          (populateContext w s c).state.ecsContext.Context.EnvironmentLookup =
            some w.GetDefaultEnvironmentLookup.1 ∧
          (populateContext w s c).state.ecsContext.Context.ResourceLookup =
            some w.GetDefaultResourceLookup.1) := by
  constructor
  · intro p hp
    rcases outcome_cases w c b with ⟨e, h1⟩ | ⟨h1, e, h2⟩ | ⟨h1, h2, e, h3⟩ |
      ⟨h1, h2, h3, e, h4⟩ | ⟨h1, h2, h3, h4, e, h5⟩ | ⟨h1, h2, h3, h4, h5⟩
    · simp [Create_rwErr w c b e h1] at hp
    · simp [Create_ccErr w c b e h1 h2] at hp
    · simp [Create_envErr w c b e h1 h2 h3] at hp
    · simp [Create_resErr w c b e h1 h2 h3 h4] at hp
    · refine ⟨assembled w c b, ?_, ?_, ?_, ?_, ?_⟩ <;>
        simp_all [Create_parseErr w c b e h1 h2 h3 h4 h5, flagsPopulated, configAttached,
          envLookupAttached, lookupsAttached, assembled]
    · refine ⟨assembled w c b, ?_, ?_, ?_, ?_, ?_⟩ <;>
        simp_all [Create_ok w c b h1 h2 h3 h4 h5, flagsPopulated, configAttached,
          envLookupAttached, lookupsAttached, assembled]
  · intro s hs
    obtain ⟨h1, h2, h3, h4⟩ := populateContext_ret_none w s c hs
    simp [populateContext_ok w s c h1 h2 h3 h4, flagsPopulated, configAttached,
      envLookupAttached, lookupsAttached]

/-- Witness of C9 on a successful run: `Parse` is invoked, and the context of
its project holds the three values. -/
theorem Parse_only_on_complete_context_witness :
    ∃ x : ECSContext String String String,
      Call.Parse x ∈ (Create (demoWorld none none none none none) demoCli true).state.calls ∧
      x.CommandConfig = some "p7" ∧ x.Context.EnvironmentLookup = some "env" ∧
      x.Context.ResourceLookup = some "res" := by
  have hmem : Call.Parse (assembled (demoWorld none none none none none) demoCli true) ∈
      (Create (demoWorld none none none none none) demoCli true).state.calls := by
    rw [Create_ok _ demoCli true rfl rfl rfl rfl rfl]
    simp [demoWorld]
  obtain ⟨x, _, hx, h1, h2, h3⟩ :=
    (Parse_only_on_complete_context (demoWorld none none none none none) demoCli true).1 _ hmem
  refine ⟨x, ?_, ?_, h2, h3⟩
  · have hx2 : x = assembled (demoWorld none none none none none) demoCli true := hx.symm
    rw [hx2]
    exact hmem
  · rw [h1]
    rfl

/-- C10: the stages `Create` invokes are exactly those the short-circuiting
chain over the fixed order runs, up to and including the first failing stage
(all six when none fails), and the error `Create` returns is the error of that
stage; the stage sequence is an initial segment of the fixed order and has no
repetition. -/
theorem Create_stage_sequence (w : Collaborators RW CC EL RL P E) (c : cli.Context)
    (b : Bool) :
    stages (Create w c b).state.calls = (runStages (stageError w c b) stageOrder).1 ∧
      (Create w c b).ret.2 = (runStages (stageError w c b) stageOrder).2 ∧
      stages (Create w c b).state.calls <+: stageOrder ∧
      (stages (Create w c b).state.calls).Nodup := by
  rcases outcome_cases w c b with ⟨e, h1⟩ | ⟨h1, e, h2⟩ | ⟨h1, h2, e, h3⟩ |
    ⟨h1, h2, h3, e, h4⟩ | ⟨h1, h2, h3, h4, e, h5⟩ | ⟨h1, h2, h3, h4, h5⟩
  · rw [Create_rwErr w c b e h1]
    refine ⟨?_, ?_, ?_, ?_⟩ <;>
      simp [stages, Call.stage, runStages, stageError, stageOrder, h1]
  · rw [Create_ccErr w c b e h1 h2]
    refine ⟨?_, ?_, ?_, ?_⟩ <;>
      simp [stages, Call.stage, runStages, stageError, stageOrder, h1, h2]
  · rw [Create_envErr w c b e h1 h2 h3]
    refine ⟨?_, ?_, ?_, ?_⟩ <;>
      simp [stages, Call.stage, runStages, stageError, stageOrder, h1, h2, h3]
  · rw [Create_resErr w c b e h1 h2 h3 h4]
    refine ⟨?_, ?_, ?_, ?_⟩ <;>
      simp [stages, Call.stage, runStages, stageError, stageOrder, h1, h2, h3, h4]
  · rw [Create_parseErr w c b e h1 h2 h3 h4 h5]
    refine ⟨?_, ?_, ?_, ?_⟩ <;>
      simp [stages, Call.stage, runStages, stageError, stageOrder, h1, h2, h3, h4, h5]
  · rw [Create_ok w c b h1 h2 h3 h4 h5]
    refine ⟨?_, ?_, ?_, ?_⟩ <;>
      simp [stages, Call.stage, runStages, stageError, stageOrder, h1, h2, h3, h4, h5]

end Claims

end factory
